import Mathlib

/-!
Verification of the client-side conversation synchronization layer of the
test-chatbot repository (frontend/src/httpClient.ts and the Chat component,
frontend/src/components/Chat.tsx ProtectedRoute).

The embedding is shallow: React component state becomes a record, each event
handler becomes a function from state to new state together with the list of
HTTP requests it issues, the axios response interceptor becomes a function on
the browser-global state (localStorage key "token" and window.location.href),
and the react-query mutation lifecycle (onSuccess invalidating the
"chatHistory" query, which refetches GET /messages/history) becomes an
explicit resolution step parametrised by the mutation outcome and the
server-side history.
-/

namespace Chatbot

/-- The `ChatMessage` interface of the Chat component. -/
structure ChatMessage where
  id : Nat
  content : String
  reply_to : Option Nat
  is_from_user : Bool
  buttons : List String
deriving DecidableEq, Repr

/-- HTTP method of an outbound httpClient call. -/
inductive Method
  | get
  | post
  | put
  | del
deriving DecidableEq, Repr

/-- An outbound HTTP request: method, path, and the `content` field of the
JSON body when the call carries one (`POST /messages` and `PUT /messages/:id`
both send `\x7b content \x7d`; GET and DELETE send no body). -/
structure Request where
  method : Method
  path : String
  body : Option String
deriving DecidableEq, Repr

/-- Browser-global state touched by the axios response interceptor in
httpClient.ts: the localStorage key "token" and window.location.href. -/
structure BrowserState where
  token : Option String
  location : String
deriving DecidableEq, Repr

/-- An axios rejection: either a response was received with some status
(`error.response` present), or the request failed at transport level with no
response at all (`error.response` absent). -/
inductive AxiosError
  | httpError (status : Nat)
  | networkError
deriving DecidableEq, Repr

def loginPath : String := "/login"

/-- Shallow embedding of the error branch of the axios response interceptor
(httpClient.ts lines 10-20): if `error.response && error.response.status ===
401` then `localStorage.removeItem('token'); window.location.href = '/login'`;
in every case the interceptor returns `Promise.reject(error)` with the
original error. -/
def onResponseError (s : BrowserState) (e : AxiosError) : BrowserState × AxiosError :=
  match e with
  | .httpError 401 => ({ s with token := none, location := loginPath }, e)
  | _ => (s, e)

/-- Outcome of the transport for one call: a 2xx success, a non-2xx response
with a status, or a transport-level failure with no response. -/
inductive CallOutcome
  | ok
  | httpErr (status : Nat)
  | netErr
deriving DecidableEq, Repr

/-- What the caller of httpClient sees for one call. -/
inductive CallResult
  | resolved
  | rejected (e : AxiosError)
deriving DecidableEq, Repr

/-- One call through the httpClient axios instance: a successful response is
passed through unchanged, any error is routed through the response
interceptor before being rejected to the caller. -/
def gatewayCall (s : BrowserState) (o : CallOutcome) : BrowserState × CallResult :=
  match o with
  | .ok => (s, .resolved)
  | .httpErr st =>
    let r := onResponseError s (.httpError st)
    (r.1, .rejected r.2)
  | .netErr =>
    let r := onResponseError s .networkError
    (r.1, .rejected r.2)

/-- The four authenticated API operations the Chat component performs. -/
inductive ApiOp
  | fetchHistory
  | sendMessage (content : String)
  | editMessage (id : String) (content : String)
  | deleteMessage (id : String)
deriving DecidableEq, Repr

/-- The request each operation issues, exactly as built in the component:
`httpClient.get('/messages/history')`, `httpClient.post('/messages',
\x7b content \x7d)`, ``httpClient.put(`/messages/$\x7bmessageId\x7d`,
\x7b content \x7d)``, ``httpClient.delete(`/messages/$\x7bmessageId\x7d`)``. -/
def requestOf : ApiOp → Request
  | .fetchHistory => ⟨.get, "/messages/history", none⟩
  | .sendMessage c => ⟨.post, "/messages", some c⟩
  | .editMessage i c => ⟨.put, "/messages/" ++ i, some c⟩
  | .deleteMessage i => ⟨.del, "/messages/" ++ i, none⟩

/-- Running one API operation end to end through the shared axios instance:
it issues exactly its one request and the response (or error) goes through
the shared response interceptor, whichever operation it was. -/
def runApiCall (s : BrowserState) (op : ApiOp) (o : CallOutcome) :
    BrowserState × CallResult × List Request :=
  let r := gatewayCall s o
  (r.1, r.2, [requestOf op])

/-- Whitespace as JavaScript `String.prototype.trim` strips it (spaces,
tabs, line terminators). -/
def isWs (c : Char) : Bool :=
  c.isWhitespace

/-- JavaScript `s.trim()`: drop whitespace from both ends of the character
sequence. -/
def jsTrim (s : String) : String :=
  ⟨(((s.data.dropWhile isWs).reverse.dropWhile isWs).reverse)⟩

/-- Local state of the Chat component: the `message` input field, the
`editMessageId` slot, the `editedContent` draft (three useState hooks), and
the react-query cached data for the "chatHistory" query (`none` before the
first successful fetch). -/
structure ChatState where
  message : String
  editMessageId : Option String
  editedContent : String
  chatHistory : Option (List ChatMessage)
deriving DecidableEq, Repr

/-- `handleSendMessage`: `if (message.trim()) \x7b
sendMessageMutation.mutate(message); setMessage(''); \x7d` — the guard tests
the trimmed message, but the mutation is fired with the raw `message`, and
the input is cleared synchronously right after dispatch. Returns the new
component state and the requests dispatched. -/
def handleSendMessage (s : ChatState) : ChatState × List Request :=
  if jsTrim s.message ≠ "" then
    ({ s with message := "" }, [requestOf (.sendMessage s.message)])
  else
    (s, [])

/-- `handleDeleteMessage`: unconditionally fires the delete mutation. -/
def handleDeleteMessage (s : ChatState) (messageId : String) : ChatState × List Request :=
  (s, [requestOf (.deleteMessage messageId)])

/-- `handleEditMessage`: `setEditMessageId(messageId);
setEditedContent(content);` — purely local, no mutation fired. -/
def handleEditMessage (s : ChatState) (messageId : String) (content : String) :
    ChatState × List Request :=
  ({ s with editMessageId := some messageId, editedContent := content }, [])

/-- `handleSaveEdit`: `if (editedContent.trim()) \x7b
editMessageMutation.mutate(\x7b messageId, content: editedContent \x7d); \x7d`
— fires the edit mutation with the raw draft when its trim is non-empty,
otherwise does nothing; the local state is untouched either way (the edit
slot is only cleared later, by the mutation's onSuccess). -/
def handleSaveEdit (s : ChatState) (messageId : String) : ChatState × List Request :=
  if jsTrim s.editedContent ≠ "" then
    (s, [requestOf (.editMessage messageId s.editedContent)])
  else
    (s, [])

/-- Outcome of a dispatched mutation. -/
inductive MutationOutcome
  | success
  | failure
deriving DecidableEq, Repr

/-- `queryClient.invalidateQueries('chatHistory')` followed by the refetch it
triggers: the query function `httpClient.get('/messages/history')` replaces
the cached replica wholesale with the server's current history, in server
order. `server` is the list the server returns. -/
def refetchChatHistory (server : List ChatMessage) (s : ChatState) : ChatState :=
  { s with chatHistory := some server }

/-- Resolution of `sendMessageMutation`: onSuccess invalidates "chatHistory"
(refetching from the server); there is no onError handler, so on failure the
component state is untouched. -/
def resolveSendMessage (server : List ChatMessage) (s : ChatState) :
    MutationOutcome → ChatState
  | .success => refetchChatHistory server s
  | .failure => s

/-- Resolution of `deleteMessageMutation`: onSuccess invalidates
"chatHistory"; no onError handler. -/
def resolveDeleteMessage (server : List ChatMessage) (s : ChatState) :
    MutationOutcome → ChatState
  | .success => refetchChatHistory server s
  | .failure => s

/-- Resolution of `editMessageMutation`: onSuccess invalidates "chatHistory"
and calls `setEditMessageId(null)`; no onError handler, so on failure the
whole component state — in particular the open edit session — is unchanged. -/
def resolveEditMessage (server : List ChatMessage) (s : ChatState) :
    MutationOutcome → ChatState
  | .success => { refetchChatHistory server s with editMessageId := none }
  | .failure => s

/-- JavaScript truthiness of `localStorage.getItem('token')` (a string or
null): `!!t` is false exactly for null and the empty string. -/
def jsTruthy : Option String → Bool
  | none => false
  | some t => t != ""

/-- `const isAuthenticated = !!localStorage.getItem('token');` in
ProtectedRoute. -/
def isAuthenticated (token : Option String) : Bool :=
  jsTruthy token

/-- Outcome of the route guard. -/
inductive RouteDecision
  | Allow
  | DenyRedirect (path : String)
deriving DecidableEq, Repr

/-- ProtectedRoute: `isAuthenticated ? <Outlet /> : <Navigate to="/login"
replace />`, evaluated synchronously from the stored token alone; it issues
no HTTP request (second component of the result). -/
def protectedRouteResolve (token : Option String) : RouteDecision × List Request :=
  if isAuthenticated token then
    (.Allow, [])
  else
    (.DenyRedirect loginPath, [])

/-- A sequence of "begin edit" user actions, each carrying the target
message id and that message's current content, applied in order. -/
def applyBeginEdits (s : ChatState) (acts : List (String × String)) : ChatState :=
  acts.foldl (fun st a => (handleEditMessage st a.1 a.2).1) s

/-- Message `id` is in Editing state: the single edit slot holds it. -/
def isEditing (s : ChatState) (id : String) : Prop :=
  s.editMessageId = some id

/-- Claim C1: after sendMessage, editMessage or deleteMessage resolves
successfully, the cached chat history equals the server's
GET /messages/history response (in server order, being literally the server's
list); every resolution either installs a whole server-returned history or
leaves the cache untouched, and the synchronous handlers never write the
cache at all — no locally-merged or optimistically-patched history is ever
written. -/
theorem refetch_wins_consistency (server : List ChatMessage) (s : ChatState) :
    ((resolveSendMessage server s .success).chatHistory = some server
      ∧ (resolveEditMessage server s .success).chatHistory = some server
      ∧ (resolveDeleteMessage server s .success).chatHistory = some server)
    ∧ (∀ o, (resolveSendMessage server s o).chatHistory = some server
        ∨ (resolveSendMessage server s o).chatHistory = s.chatHistory)
    ∧ (∀ o, (resolveEditMessage server s o).chatHistory = some server
        ∨ (resolveEditMessage server s o).chatHistory = s.chatHistory)
    ∧ (∀ o, (resolveDeleteMessage server s o).chatHistory = some server
        ∨ (resolveDeleteMessage server s o).chatHistory = s.chatHistory)
    ∧ (handleSendMessage s).1.chatHistory = s.chatHistory
    ∧ (∀ id, (handleDeleteMessage s id).1.chatHistory = s.chatHistory)
    ∧ (∀ id c, (handleEditMessage s id c).1.chatHistory = s.chatHistory)
    ∧ (∀ id, (handleSaveEdit s id).1.chatHistory = s.chatHistory) := by
  refine ⟨⟨rfl, rfl, rfl⟩, ?_, ?_, ?_, ?_, ?_, ?_, ?_⟩
  · intro o
    cases o
    · exact Or.inl rfl
    · exact Or.inr rfl
  · intro o
    cases o
    · exact Or.inl rfl
    · exact Or.inr rfl
  · intro o
    cases o
    · exact Or.inl rfl
    · exact Or.inr rfl
  · unfold handleSendMessage
    split <;> rfl
  · intro id
    rfl
  · intro id c
    rfl
  · intro id
    unfold handleSaveEdit
    split <;> rfl

/-- Claim C2: for every authenticated call whose response has status 401,
whichever operation triggered it, the interceptor clears the localStorage
token, forces navigation to the login surface, and the call is rejected with
the 401 error. -/
theorem unauthorized_clears_session_and_redirects (s : BrowserState) (op : ApiOp) :
    runApiCall s op (.httpErr 401)
      = ({ s with token := none, location := loginPath },
          .rejected (.httpError 401), [requestOf op]) :=
  rfl

/-- Claim C3: for every string whose trim is empty, submitting it as a new
message or saving it as an edit draft issues no network call and leaves the
component state entirely unchanged — a silent no-op, not an error. -/
theorem whitespace_only_send_and_edit_noop (str : String) (h : jsTrim str = "")
    (s : ChatState) (id : String) :
    handleSendMessage { s with message := str } = ({ s with message := str }, [])
    ∧ handleSaveEdit { s with editedContent := str } id
      = ({ s with editedContent := str }, []) := by
  constructor
  · simp [handleSendMessage, h]
  · simp [handleSaveEdit, h]

/-- Claim C3 witness: the whitespace-only input "   " makes both send and
edit-save silent no-ops. -/
theorem whitespace_only_send_and_edit_noop_witness :
    handleSendMessage ⟨"   ", none, "", none⟩ = (⟨"   ", none, "", none⟩, [])
    ∧ handleSaveEdit ⟨"", none, "   ", none⟩ "1" = (⟨"", none, "   ", none⟩, []) :=
  whitespace_only_send_and_edit_noop "   " (by decide) ⟨"", none, "", none⟩ "1"

/-- Claim C4: there is a single edit slot, so after any sequence of
"begin edit" actions at most one message is in Editing state; and beginning
an edit on message B while message A is being edited moves directly to
Editing(B, B's content), discarding A's draft with no confirmation. -/
theorem single_active_edit (s : ChatState) (acts : List (String × String))
    (aId bId bContent : String) (_hA : isEditing s aId) :
    (∀ i j : String, isEditing (applyBeginEdits s acts) i →
      isEditing (applyBeginEdits s acts) j → i = j)
    ∧ (handleEditMessage s bId bContent).1.editMessageId = some bId
    ∧ (handleEditMessage s bId bContent).1.editedContent = bContent := by
  refine ⟨?_, rfl, rfl⟩
  intro i j hi hj
  unfold isEditing at hi hj
  rw [hi] at hj
  exact Option.some.inj hj

/-- Claim C4 witness: while editing message "1" with draft "Hello!",
beginning an edit on message "2" switches the slot to "2" and the draft to
message 2's content. -/
theorem single_active_edit_witness :
    (handleEditMessage ⟨"", some "1", "Hello!", none⟩ "2" "Hi there!").1.editMessageId
      = some "2"
    ∧ (handleEditMessage ⟨"", some "1", "Hello!", none⟩ "2" "Hi there!").1.editedContent
      = "Hi there!" :=
  ⟨(single_active_edit ⟨"", some "1", "Hello!", none⟩ [] "1" "2" "Hi there!" rfl).2.1,
   (single_active_edit ⟨"", some "1", "Hello!", none⟩ [] "1" "2" "Hi there!" rfl).2.2⟩

/-- Claim C5: saving an edit with a non-empty trimmed draft issues exactly
one PUT to the message's endpoint with the draft as the body's content (the
local state unchanged at dispatch); on success the mutation clears the edit
slot back to Idle and the cache is refetched from the server; on failure the
whole state — the open edit session included — is unchanged, so the caller
may retry. -/
theorem edit_save_contract (server : List ChatMessage) (s : ChatState) (id : String)
    (h : jsTrim s.editedContent ≠ "") :
    (handleSaveEdit s id).2 = [⟨Method.put, "/messages/" ++ id, some s.editedContent⟩]
    ∧ (handleSaveEdit s id).1 = s
    ∧ (resolveEditMessage server s .success).editMessageId = none
    ∧ (resolveEditMessage server s .success).chatHistory = some server
    ∧ resolveEditMessage server s .failure = s := by
  refine ⟨?_, ?_, rfl, rfl, rfl⟩
  · simp [handleSaveEdit, h, requestOf]
  · simp [handleSaveEdit, h]

/-- Claim C5 witness: editing message id 1 to "Edited message" issues
PUT /messages/1 with that content; on success the edit session returns to
Idle and the cache holds the refetched server history; on failure nothing
changes. -/
theorem edit_save_contract_witness :
    (handleSaveEdit ⟨"", some "1", "Edited message", none⟩ "1").2
      = [⟨Method.put, "/messages/" ++ "1", some "Edited message"⟩]
    ∧ (handleSaveEdit ⟨"", some "1", "Edited message", none⟩ "1").1
      = ⟨"", some "1", "Edited message", none⟩
    ∧ (resolveEditMessage [⟨1, "Edited message", none, true, []⟩]
        ⟨"", some "1", "Edited message", none⟩ .success).editMessageId = none
    ∧ (resolveEditMessage [⟨1, "Edited message", none, true, []⟩]
        ⟨"", some "1", "Edited message", none⟩ .success).chatHistory
      = some [⟨1, "Edited message", none, true, []⟩]
    ∧ resolveEditMessage [⟨1, "Edited message", none, true, []⟩]
        ⟨"", some "1", "Edited message", none⟩ .failure
      = ⟨"", some "1", "Edited message", none⟩ :=
  edit_save_contract [⟨1, "Edited message", none, true, []⟩]
    ⟨"", some "1", "Edited message", none⟩ "1" (by decide)

/-- Claim C6 counterexample: with input " hi " (trim "hi", non-empty) the
send handler issues exactly one POST /messages whose body content is the raw
string " hi ", which differs from the trimmed input — so the POST body's
content field does not equal the trimmed input string. -/
theorem send_trim_claim_cex :
    (handleSendMessage ⟨" hi ", none, "", none⟩).2
      = [⟨Method.post, "/messages", some " hi "⟩]
    ∧ jsTrim " hi " ≠ " hi "
    ∧ ¬ ((handleSendMessage ⟨" hi ", none, "", none⟩).2
      = [⟨Method.post, "/messages", some (jsTrim " hi ")⟩]) := by
  decide

/-- Claim C6 (amended): for every send with input whose trim is non-empty,
the POST body's content field equals the raw input string — trimming is used
only for the emptiness guard, the content itself is sent untrimmed. -/
theorem send_posts_raw_input (s : ChatState) (h : jsTrim s.message ≠ "") :
    (handleSendMessage s).2 = [⟨Method.post, "/messages", some s.message⟩] := by
  simp [handleSendMessage, h, requestOf]

/-- Claim C6 (amended) witness: sending with input " hi " posts content
" hi ". -/
theorem send_posts_raw_input_witness :
    (handleSendMessage ⟨" hi ", none, "", none⟩).2
      = [⟨Method.post, "/messages", some " hi "⟩] :=
  send_posts_raw_input ⟨" hi ", none, "", none⟩ (by decide)

/-- Claim C7: submitting a message whose trim is non-empty clears the input
field in the very state returned by the submit handler — before any network
resolution — and the field stays empty whatever the eventual mutation
outcome. -/
theorem send_clears_input_synchronously (s : ChatState) (h : jsTrim s.message ≠ "") :
    (handleSendMessage s).1.message = ""
    ∧ ∀ (server : List ChatMessage) (o : MutationOutcome),
        (resolveSendMessage server (handleSendMessage s).1 o).message = "" := by
  have h1 : (handleSendMessage s).1.message = "" := by
    simp [handleSendMessage, h]
  refine ⟨h1, ?_⟩
  intro server o
  cases o
  · simpa [resolveSendMessage, refetchChatHistory] using h1
  · exact h1

/-- Claim C7 witness: submitting "hi" clears the input at once, and it is
still clear after a failed resolution. -/
theorem send_clears_input_synchronously_witness :
    (handleSendMessage ⟨"hi", none, "", none⟩).1.message = ""
    ∧ (resolveSendMessage [] (handleSendMessage ⟨"hi", none, "", none⟩).1
        .failure).message = "" :=
  ⟨(send_clears_input_synchronously ⟨"hi", none, "", none⟩ (by decide)).1,
   (send_clears_input_synchronously ⟨"hi", none, "", none⟩ (by decide)).2 [] .failure⟩

/-- Claim C8: the route guard allows exactly when the stored token is
authenticated (the code's isAuthenticated check on the stored token), denies
with a redirect to the login path otherwise, and issues no network request —
the decision is a pure function of the stored token alone. -/
theorem protected_route_decision (token : Option String) :
    ((protectedRouteResolve token).1 = RouteDecision.Allow
      ↔ isAuthenticated token = true)
    ∧ (isAuthenticated token = false →
        (protectedRouteResolve token).1 = RouteDecision.DenyRedirect loginPath)
    ∧ (protectedRouteResolve token).2 = [] := by
  unfold protectedRouteResolve
  cases hb : isAuthenticated token <;> simp [hb]

/-- Claim C8 witness: a present non-empty token is allowed through, an
absent token is redirected to the login path. -/
theorem protected_route_decision_witness :
    (protectedRouteResolve (some "tok")).1 = RouteDecision.Allow
    ∧ (protectedRouteResolve none).1 = RouteDecision.DenyRedirect loginPath :=
  ⟨(protected_route_decision (some "tok")).1.mpr (by decide),
   (protected_route_decision none).2.1 (by decide)⟩

/-- Claim C9: a transport-level failure with no response leaves the stored
token and the location untouched, whichever operation was running, and the
error is propagated to the caller as a rejection. -/
theorem network_error_preserves_session (s : BrowserState) (op : ApiOp) :
    runApiCall s op .netErr = (s, .rejected .networkError, [requestOf op]) :=
  rfl

/-- Claim C10: beginning an edit is purely local: it issues no request and
only sets the edit slot to the target id and the draft to that message's
content; the cached history and the new-message input are unchanged. -/
theorem begin_edit_purely_local (s : ChatState) (id content : String) :
    handleEditMessage s id content
      = ({ s with editMessageId := some id, editedContent := content }, [])
    ∧ (handleEditMessage s id content).1.chatHistory = s.chatHistory
    ∧ (handleEditMessage s id content).1.message = s.message :=
  ⟨rfl, rfl, rfl⟩

end Chatbot
